import Mathlib

/-!
Verification development for the poultry-queue-sim repository.

The Python sources are shallowly embedded here:
* timestamps (Python floats holding seconds) become rationals `ℚ`;
* Python dicts that preserve insertion order become association lists;
* the shared `random` module becomes an explicit oracle (`RandModel`)
  holding one stream of unit draws plus abstract distribution
  transforms, consumed through an explicit counter;
* code that can raise becomes `Except PyErr`.
-/

namespace PoultrySim

/-- Errors the embedded Python code can raise.  `fuelExhausted` is an
artifact of bounding unbounded `while` loops by fuel; no theorem below
treats it as a program behaviour. -/
inductive PyErr where
  | valueErrorNoWindow (hour : ℚ)
  | valueErrorNoDistConfig (window : String)
  | attributeError (attr : String)
  | keyError (key : String)
  | indexError
  | valueErrorMinEmpty
  | fuelExhausted

/-- A named daily time window, `{"start": ..., "end": ...}` in the config
(hours of the day).  `endH` embeds the `end` key (a Lean keyword). -/
structure TimeWindow where
  startH : ℕ
  endH : ℕ

/-- `gamma: {shape, rate}` of a distribution config. -/
structure GammaCfg where
  shape : ℚ
  rate : ℚ

/-- `uniform: {min, max}` of a distribution config. -/
structure UniformCfg where
  min : ℚ
  max : ℚ

/-- One window's distribution configuration dict.  Every key is read with
`dict.get`-style access somewhere in the source, so each field is an
`Option`; `cfg["gamma"]` / `cfg["uniform"]` raise `KeyError` on `none`. -/
structure DistCfg where
  gamma : Option GammaCfg := none
  uniform : Option UniformCfg := none
  mixture_prob : Option ℚ := none
  arrival_rate_per_hour : Option ℚ := none

/-- The oracle for Python's global `random` module.  `stream` is the
sequence of unit draws, one consumed per primitive call; the remaining
fields are abstract transforms turning a draw and the call's parameters
into the primitive's result (`random.expovariate`, `random.gammavariate`,
`random.uniform`, `random.randint`, `random.randrange`,
`random.choices` index). -/
structure RandModel where
  stream : ℕ → ℚ
  expovariateF : ℚ → ℚ → ℚ
  gammavariateF : ℚ → ℚ → ℚ → ℚ
  uniformF : ℚ → ℚ → ℚ → ℚ
  randintF : ℕ → ℕ → ℚ → ℕ
  randrangeF : ℕ → ℚ → ℕ
  choicesF : List ℚ → ℚ → ℕ

/-- `SECONDS_PER_DAY = 24 * 3600` from `generators.py`. -/
def SECONDS_PER_DAY : ℚ := 24 * 3600

/-- Python's `%` on reals with a positive modulus: floor-based remainder. -/
def pymod (x m : ℚ) : ℚ := x - m * (⌊x / m⌋ : ℤ)

/-- `_in_window(hour, start, end)` from `generators.py`. -/
def inWindow (hour : ℚ) (s e : ℕ) : Bool :=
  if (s : ℚ) ≤ (e : ℚ) then decide ((s : ℚ) ≤ hour ∧ hour ≤ (e : ℚ))
  else decide ((s : ℚ) ≤ hour ∨ hour ≤ (e : ℚ))

/-- `ArrivalGenerator.window_for_time`: first window (in dict order) whose
span contains the hour of day of `current_time`; `ValueError` if none. -/
def windowForTime (tws : List (String × TimeWindow)) (current_time : ℚ) :
    Except PyErr String :=
  let hour := pymod current_time SECONDS_PER_DAY / 3600
  match tws.find? (fun nw => inWindow hour nw.2.startH nw.2.endH) with
  | some nw => .ok nw.1
  | none => .error (.valueErrorNoWindow hour)

/-- Python's `min` over a list: `ValueError` (here `none`) when empty,
otherwise the first element folded with `min`. -/
def listMinQ : List ℚ → Option ℚ
  | [] => none
  | x :: xs => some (xs.foldl min x)

/-- One candidate of `ArrivalGenerator._next_boundary_seconds`: the start
hour of `tw` on the current day, pushed a day later when not in the
future. -/
def boundaryCandidate (t : ℚ) (tw : TimeWindow) : ℚ :=
  let candidate : ℚ := (⌊t / SECONDS_PER_DAY⌋ : ℤ) * SECONDS_PER_DAY + (tw.startH : ℚ) * 3600
  if candidate ≤ t then candidate + SECONDS_PER_DAY else candidate

/-- `ArrivalGenerator._next_boundary_seconds`. -/
def nextBoundarySeconds (tws : List (String × TimeWindow)) (t : ℚ) : Option ℚ :=
  listMinQ (tws.map (fun nw => boundaryCandidate t nw.2))

/-- Dict lookup in a `distribution_config` mapping. -/
def lookupCfg (dists : List (String × DistCfg)) (w : String) : Option DistCfg :=
  (dists.find? (fun p => p.1 = w)).map (·.2)

namespace ServiceTimeSampler

/-- `ServiceTimeSampler.sample`: mixture draw `random.random() < mixture_prob`
(default 1.0), then either `random.gammavariate(shape, 1/rate)` or
`random.uniform(min, max)`.  Returns the sample and the advanced draw
counter. -/
def sample (dists : List (String × DistCfg)) (window : String)
    (rm : RandModel) (k : ℕ) : Except PyErr (ℚ × ℕ) :=
  match lookupCfg dists window with
  | none => .error (.valueErrorNoDistConfig window)
  | some cfg =>
    let mixture_prob := cfg.mixture_prob.getD 1
    if rm.stream k < mixture_prob then
      match cfg.gamma with
      | none => .error (.keyError "gamma")
      | some g => .ok (rm.gammavariateF g.shape (1 / g.rate) (rm.stream (k + 1)), k + 2)
    else
      match cfg.uniform with
      | none => .error (.keyError "uniform")
      | some u => .ok (rm.uniformF u.min u.max (rm.stream (k + 1)), k + 2)

/-- `ServiceTimeSampler.arrival_rate_per_hour`. -/
def arrival_rate_per_hour (dists : List (String × DistCfg)) (window : String) :
    Except PyErr ℚ :=
  match lookupCfg dists window with
  | none => .error (.valueErrorNoDistConfig window)
  | some cfg => .ok (cfg.arrival_rate_per_hour.getD 0)

end ServiceTimeSampler

/-- One generated arrival `(timestamp, hen_id, window)`. -/
structure Arrival where
  ts : ℚ
  hen : ℕ
  window : String

/-- `ArrivalGenerator.generate_arrivals` as the source actually is: the
first loop iteration evaluates `self.sampler.arrival_rate_per_second(window)`,
but `ServiceTimeSampler` defines no attribute `arrival_rate_per_second`
(only `arrival_rate_per_hour`), so whenever `duration_days ≥ 1` the call
raises `AttributeError` at `t = 0` — right after `window_for_time(0)`
succeeds — and the loop never advances.  With `duration_days = 0` the
`while t < total_seconds` guard is immediately false and `[]` is
returned.  No recursion is therefore needed in the embedding. -/
def generateArrivals (tws : List (String × TimeWindow)) (duration_days : ℕ) :
    Except PyErr (List Arrival) :=
  let total_seconds : ℚ := (duration_days : ℚ) * SECONDS_PER_DAY
  if (0 : ℚ) < total_seconds then
    match windowForTime tws 0 with
    | .error e => .error e
    | .ok _window => .error (.attributeError "arrival_rate_per_second")
  else .ok []

/-- Modelled from the spec: `ServiceTimeSampler.arrival_rate_per_second`,
which `generate_arrivals` calls and `tests/test_distributions.py`
exercises, is absent from the repository.  The spec says the per-second
arrival rate is the per-hour rate divided by 3600, fetched from the
sampler, with the same missing-config error as the other accessors. -/
def arrivalRatePerSecondSpec (dists : List (String × DistCfg)) (window : String) :
    Except PyErr ℚ :=
  match ServiceTimeSampler.arrival_rate_per_hour dists window with
  | .error e => .error e
  | .ok r => .ok (r / 3600)

/-- The `while` loop of `ArrivalGenerator.generate_arrivals`, with the
missing rate accessor replaced by its spec model
(`arrivalRatePerSecondSpec`); everything else mirrors the source:
zero-rate windows jump to the next boundary, a drawn arrival at or past
the boundary snaps `t` to the boundary without recording, an arrival past
`total` ends the loop, and otherwise `(t, hen, window)` is recorded.
`acc` collects arrivals in reverse; fuel bounds the loop. -/
def genLoop (tws : List (String × TimeWindow)) (dists : List (String × DistCfg))
    (hens_number : ℕ) (rm : RandModel) (total : ℚ) :
    ℕ → ℚ → ℕ → List Arrival → Except PyErr (List Arrival)
  | 0, _, _, _ => .error .fuelExhausted
  | fuel + 1, t, k, acc =>
    if t < total then
      match windowForTime tws t with
      | .error e => .error e
      | .ok window =>
        match arrivalRatePerSecondSpec dists window with
        | .error e => .error e
        | .ok rate_sec =>
          match nextBoundarySeconds tws t with
          | none => .error .valueErrorMinEmpty
          | some boundary =>
            if rate_sec ≤ 0 then
              genLoop tws dists hens_number rm total fuel (min boundary total) k acc
            else
              let dt := rm.expovariateF rate_sec (rm.stream k)
              if boundary ≤ t + dt then
                genLoop tws dists hens_number rm total fuel boundary (k + 1) acc
              else if total < t + dt then .ok acc.reverse
              else
                let hen := rm.randintF 1 hens_number (rm.stream (k + 1))
                genLoop tws dists hens_number rm total fuel (t + dt) (k + 2)
                  (⟨t + dt, hen, window⟩ :: acc)
    else .ok acc.reverse

/-- `generate_arrivals(duration_days)` under the spec-modelled rate
accessor: run the loop from `t = 0` with an empty accumulator. -/
def generateArrivalsSpec (tws : List (String × TimeWindow))
    (dists : List (String × DistCfg)) (hens_number : ℕ) (rm : RandModel)
    (duration_days : ℕ) (fuel : ℕ) : Except PyErr (List Arrival) :=
  genLoop tws dists hens_number rm ((duration_days : ℚ) * SECONDS_PER_DAY) fuel 0 0 []

/-- One emitted log entry `{timestamp, hen_id, nest_id, event_type}`. -/
structure LogEntry where
  timestamp : ℚ
  hen_id : ℕ
  nest_id : ℕ
  event_type : String

/-- The mutable state of `Nest` (`nest.py`). -/
structure Nest where
  nest_id : ℕ
  busy_until : ℚ
  queue : List ℕ
  occupancy_start : Option ℚ
  total_occupancy_duration : ℚ
  single_hen_start : Option ℚ
  total_single_hen_duration : ℚ

/-- `Nest.__init__`. -/
def Nest.init (nest_id : ℕ) : Nest :=
  { nest_id := nest_id, busy_until := 0, queue := [],
    occupancy_start := none, total_occupancy_duration := 0,
    single_hen_start := none, total_single_hen_duration := 0 }

/-- `Nest.handle_arrival`: if the server is free and nobody waits
(`current_time >= busy_until and not queue`), open both metric intervals,
sample a service time, log the entry and return the scheduled exit;
otherwise close a running single-hen interval when the queue was empty
and append the hen to the queue.  Returns
`(logs, next exit event, new state, new draw counter)`. -/
def Nest.handle_arrival (st : Nest) (current_time : ℚ) (hen_id : ℕ)
    (dists : List (String × DistCfg)) (window : String)
    (rm : RandModel) (k : ℕ) :
    Except PyErr (List LogEntry × Option (ℚ × ℕ) × Nest × ℕ) :=
  if st.busy_until ≤ current_time ∧ st.queue = [] then
    let st1 := { st with occupancy_start := some current_time,
                         single_hen_start := some current_time }
    match ServiceTimeSampler.sample dists window rm k with
    | .error e => .error e
    | .ok (service_time, k') =>
      .ok ([⟨current_time, hen_id, st.nest_id, "entry"⟩],
           some (current_time + service_time, hen_id),
           { st1 with busy_until := current_time + service_time }, k')
  else
    let st1 :=
      if st.queue = [] then
        match st.single_hen_start with
        | some s => { st with
            total_single_hen_duration := st.total_single_hen_duration + (current_time - s),
            single_hen_start := none }
        | none => st
      else st
    .ok ([], none, { st1 with queue := st.queue ++ [hen_id] }, k)

/-- `Nest.handle_exit`: always log the departing hen's exit; when the
queue is non-empty pick the next hen by `random.randrange(len(queue))`
(SIRO), adjust the single-hen interval, sample its service time, log its
entry and return its scheduled exit; when the queue is empty close both
metric intervals and set `busy_until` to now. -/
def Nest.handle_exit (st : Nest) (current_time : ℚ) (hen_id : ℕ)
    (dists : List (String × DistCfg)) (window : String)
    (rm : RandModel) (k : ℕ) :
    Except PyErr (List LogEntry × Option (ℚ × ℕ) × Nest × ℕ) :=
  let exitLog : LogEntry := ⟨current_time, hen_id, st.nest_id, "exit"⟩
  match st.queue with
  | [] =>
    let st1 :=
      match st.single_hen_start with
      | some s => { st with
          total_single_hen_duration := st.total_single_hen_duration + (current_time - s),
          single_hen_start := none }
      | none => st
    let st2 :=
      match st1.occupancy_start with
      | some s => { st1 with
          total_occupancy_duration := st1.total_occupancy_duration + (current_time - s),
          occupancy_start := none }
      | none => st1
    .ok ([exitLog], none, { st2 with busy_until := current_time }, k)
  | _ :: _ =>
    let idx := rm.randrangeF st.queue.length (rm.stream k)
    match st.queue[idx]? with
    | none => .error .indexError
    | some next_hen =>
      let st1 := { st with queue := st.queue.eraseIdx idx }
      let st2 :=
        if st1.queue ≠ [] ∧ st1.single_hen_start ≠ none then
          match st1.single_hen_start with
          | some s => { st1 with
              total_single_hen_duration := st1.total_single_hen_duration + (current_time - s),
              single_hen_start := none }
          | none => st1
        else if st1.queue = [] ∧ st1.single_hen_start = none then
          { st1 with single_hen_start := some current_time }
        else st1
      match ServiceTimeSampler.sample dists window rm (k + 1) with
      | .error e => .error e
      | .ok (service_time, k') =>
        .ok ([exitLog, ⟨current_time, next_hen, st.nest_id, "entry"⟩],
             some (current_time + service_time, next_hen),
             { st2 with busy_until := current_time + service_time }, k')

/-- `Nest.finalize_metrics(final_time)`: close any still-open occupancy
and single-hen intervals. -/
def Nest.finalize_metrics (st : Nest) (final_time : ℚ) : Nest :=
  let st :=
    match st.occupancy_start with
    | some s => { st with
        total_occupancy_duration := st.total_occupancy_duration + (final_time - s),
        occupancy_start := none }
    | none => st
  match st.single_hen_start with
  | some s => { st with
      total_single_hen_duration := st.total_single_hen_duration + (final_time - s),
      single_hen_start := none }
  | none => st

/-- `Nest.get_metrics()` as the `(nest_id, occupancy, single)` triple. -/
def Nest.get_metrics (st : Nest) : ℕ × ℚ × ℚ :=
  (st.nest_id, st.total_occupancy_duration, st.total_single_hen_duration)

/-- One event of the simulator's priority queue: the tuple
`(timestamp, kind, hen_id, nest_id-or-None, window)`. -/
structure Event where
  t : ℚ
  kind : String
  hen : ℕ
  nest : Option ℕ
  window : String

/-- Lexicographic order of the Python event tuples, as `heapq` compares
them.  Arrival events carry `None` as `nest`; comparing `None` with an
`int` would raise in Python but is unreachable because the kind strings
differ first, so any value works there. -/
def eventLE (a b : Event) : Bool :=
  if a.t ≠ b.t then decide (a.t < b.t)
  else if a.kind ≠ b.kind then decide (a.kind < b.kind)
  else if a.hen ≠ b.hen then decide (a.hen < b.hen)
  else
    match a.nest, b.nest with
    | none, none => decide (a.window ≤ b.window)
    | some x, some y => if x ≠ y then decide (x < y) else decide (a.window ≤ b.window)
    | none, some _ => true
    | some _, none => false

/-- The global min-queue modelled as a sorted list: `heappush` inserts in
key order (a deterministic model of the heap's implementation-defined
placement of equal keys), `heappop` takes the head. -/
def insertEvent (e : Event) : List Event → List Event
  | [] => [e]
  | x :: xs => if eventLE x e then x :: insertEvent e xs else e :: x :: xs

/-- `sim_config`: the keys of one entry of `config["simulations"]` that
the simulator reads. -/
structure SimConfig where
  name : String
  n_nests : ℕ
  nest_selection_weights : Option (List ℚ)
  distributions : List (String × DistCfg)
  duration_days : ℕ

/-- The state `Simulator.__init__` builds. -/
structure SimState where
  config : SimConfig
  weights : List ℚ
  time_windows : List (String × TimeWindow)
  nests : List Nest
  hens_number : ℕ

/-- The default time windows installed by `Simulator.__init__` when the
caller passes no `time_windows`. -/
def defaultTimeWindows : List (String × TimeWindow) :=
  [("notte", ⟨20, 4⟩), ("giorno", ⟨5, 15⟩), ("sera", ⟨16, 19⟩)]

namespace Simulator

/-- `Simulator.__init__`.  `sim_config.get("nest_selection_weights") or
[1/n]*n` treats both a missing key and an empty list as falsy.  Seeding
(`random.seed(seed)`) fixes the draw stream; in the embedding the stream
is the `RandModel` passed to `run`, so `init` only stores configuration.
No validation of windows or distributions happens here: the function is
total and never raises a configuration error. -/
def init (sim_config : SimConfig) (time_windows : Option (List (String × TimeWindow)))
    (_seed : Option ℕ) : SimState :=
  { config := sim_config,
    weights :=
      match sim_config.nest_selection_weights with
      | some ws => if ws = [] then List.replicate sim_config.n_nests (1 / (sim_config.n_nests : ℚ)) else ws
      | none => List.replicate sim_config.n_nests (1 / (sim_config.n_nests : ℚ)),
    time_windows := time_windows.getD defaultTimeWindows,
    nests := (List.range sim_config.n_nests).map Nest.init,
    hens_number := 100 }

/-- The event loop of `Simulator.run`: pop the earliest event, track the
running maximum timestamp, dispatch arrivals to a weighted-randomly
chosen nest and exits (recomputing the current window first) to the
event's nest, collect logs and re-insert any returned exit event.
Returns `(logs, nests, final_time, draw counter)` when the queue drains. -/
def simLoop (tws : List (String × TimeWindow)) (dists : List (String × DistCfg))
    (weights : List ℚ) (rm : RandModel) :
    ℕ → List Event → List LogEntry → List Nest → ℚ → ℕ →
    Except PyErr (List LogEntry × List Nest × ℚ × ℕ)
  | 0, evs, logs, nests, final_time, k =>
    match evs with
    | [] => .ok (logs, nests, final_time, k)
    | _ :: _ => .error .fuelExhausted
  | fuel + 1, evs, logs, nests, final_time, k =>
    match evs with
    | [] => .ok (logs, nests, final_time, k)
    | ev :: rest =>
      let final_time := max final_time ev.t
      if ev.kind = "arrival" then
        let idx := rm.choicesF weights (rm.stream k)
        match nests[idx]? with
        | none => .error .indexError
        | some nest =>
          match nest.handle_arrival ev.t ev.hen dists ev.window rm (k + 1) with
          | .error e => .error e
          | .ok (lgs, exitEv, nest', k') =>
            let nests := nests.set idx nest'
            let rest :=
              match exitEv with
              | some (et, eh) => insertEvent ⟨et, "exit", eh, some nest'.nest_id, ev.window⟩ rest
              | none => rest
            simLoop tws dists weights rm fuel rest (logs ++ lgs) nests final_time k'
      else if ev.kind = "exit" ∧ ev.nest ≠ none then
        match windowForTime tws ev.t with
        | .error e => .error e
        | .ok window_now =>
          match nests[ev.nest.getD 0]? with
          | none => .error .indexError
          | some nest =>
            match nest.handle_exit ev.t ev.hen dists window_now rm k with
            | .error e => .error e
            | .ok (lgs, nextEv, nest', k') =>
              let nests := nests.set (ev.nest.getD 0) nest'
              let rest :=
                match nextEv with
                | some (et, eh) => insertEvent ⟨et, "exit", eh, some nest'.nest_id, window_now⟩ rest
                | none => rest
              simLoop tws dists weights rm fuel rest (logs ++ lgs) nests final_time k'
      else
        simLoop tws dists weights rm fuel rest logs nests final_time k

/-- The body of `Simulator.run` after arrival generation: seed the queue,
drive the loop, finalize every nest's metrics at the final time and
compute `get_metrics` — and then `_write_co_occurrences` calls
`_aggregate_co_occurrences`, whose `nest.get_co_occurrences()` lookup
fails because `Nest` defines no such attribute, so every run that
reaches this point raises `AttributeError` instead of returning. -/
def runFromArrivals (st : SimState) (fuel : ℕ) (rm : RandModel)
    (arrivals : List Arrival) :
    Except PyErr (List LogEntry × List (ℕ × ℚ × ℚ)) :=
  let events := arrivals.foldl
    (fun evs a => insertEvent ⟨a.ts, "arrival", a.hen, none, a.window⟩ evs) []
  let final_time := arrivals.foldl (fun m a => max m a.ts) 0
  match simLoop st.time_windows st.config.distributions st.weights rm
      fuel events [] st.nests final_time 0 with
  | .error e => .error e
  | .ok (_logs, nests, ft, _k) =>
    let nests := nests.map (fun n => n.finalize_metrics ft)
    let _metrics := nests.map Nest.get_metrics
    .error (.attributeError "get_co_occurrences")

/-- `Simulator.run`: generate all arrivals with the source generator and
hand them to the event loop and output stage (`runFromArrivals`),
propagating a generation error unchanged. -/
def run (st : SimState) (fuel : ℕ) (rm : RandModel) :
    Except PyErr (List LogEntry × List (ℕ × ℚ × ℚ)) :=
  (generateArrivals st.time_windows st.config.duration_days).bind
    (runFromArrivals st fuel rm)

end Simulator

/-- A call to one of the two Nest event handlers, for driving a `Nest`
through an explicit sequence of events. -/
inductive NestCall where
  | arrival (t : ℚ) (hen : ℕ) (window : String)
  | exit (t : ℚ) (hen : ℕ) (window : String)

/-- Timestamp of a `NestCall`. -/
def NestCall.time : NestCall → ℚ
  | .arrival t _ _ => t
  | .exit t _ _ => t

/-- Run a sequence of handler calls against a nest, threading the state
and the draw counter and discarding logs. -/
def runCalls (dists : List (String × DistCfg)) (rm : RandModel) :
    List NestCall → Nest × ℕ → Except PyErr (Nest × ℕ)
  | [], s => .ok s
  | c :: cs, (st, k) =>
    match c with
    | .arrival t hen w =>
      match st.handle_arrival t hen dists w rm k with
      | .error e => .error e
      | .ok (_, _, st', k') => runCalls dists rm cs (st', k')
    | .exit t hen w =>
      match st.handle_exit t hen dists w rm k with
      | .error e => .error e
      | .ok (_, _, st', k') => runCalls dists rm cs (st', k')

/-- `Simulator.run` propagates an arrival-generation error unchanged. -/
theorem Simulator.run_error_of_generate_error (st : SimState) (fuel : ℕ)
    (rm : RandModel) (e : PyErr)
    (h : generateArrivals st.time_windows st.config.duration_days = .error e) :
    Simulator.run st fuel rm = .error e := by
  unfold Simulator.run
  rw [h]
  rfl

/-! ## Claim C1 -/

/-- All-day window config for C1: `{"A": {"start": 1, "end": 0}}` wraps
across midnight and covers every hour, in particular hour 0. -/
def twC1 : List (String × TimeWindow) := [("A", ⟨1, 0⟩)]

/-- Distribution config for C1 with a rate registered for window "A". -/
def distsC1 : List (String × DistCfg) := [("A", { arrival_rate_per_hour := some 3600 })]

/-- C1: the claim says `generate_arrivals` fetches the per-second arrival
rate (per-hour divided by 3600) from the sampler and that this lookup
succeeds whenever a distribution is registered for the active window.
In the code the fetch is `self.sampler.arrival_rate_per_second(window)`,
an attribute `ServiceTimeSampler` does not define (the repo's own
`test_arrival_rate_accessor` expects it), so even with a distribution
registered for the window active at `t = 0` — here "A", whose per-hour
rate accessor works fine — the fetch raises `AttributeError` on the very
first loop iteration for every `duration_days ≥ 1`. -/
theorem C1_rate_fetch_raises_attribute_error :
    lookupCfg distsC1 "A" = some { arrival_rate_per_hour := some 3600 } ∧
    ServiceTimeSampler.arrival_rate_per_hour distsC1 "A" = .ok 3600 ∧
    generateArrivals twC1 1 = .error (.attributeError "arrival_rate_per_second") := by
  refine ⟨by norm_num [lookupCfg, distsC1, List.find?],
    by norm_num [ServiceTimeSampler.arrival_rate_per_hour, lookupCfg, distsC1, List.find?],
    by norm_num [generateArrivals, windowForTime, twC1, pymod, SECONDS_PER_DAY, inWindow,
      List.find?]⟩

/-! ## Claim C2 -/

/-- Minimal configuration for C2: one nest, zero simulated days, so the
event loop drains trivially and `run` reaches the aggregation step. -/
def cfgC2 : SimConfig := ⟨"pre_1", 1, none, [], 0⟩

/-- A concrete oracle for C2 (no draw is ever consumed on this path). -/
def rmC2 : RandModel :=
  { stream := fun _ => 0, expovariateF := fun _ _ => 0,
    gammavariateF := fun _ _ _ => 0, uniformF := fun _ _ _ => 0,
    randintF := fun _ _ _ => 0, randrangeF := fun _ _ => 0,
    choicesF := fun _ _ => 0 }

/-- C2: the claim says `Simulator.run` aggregates per-nest co-occurrence
counts into one global mapping, written once per run, and that every
`Nest` it constructs provides the query this aggregation calls.  `Nest`
defines no `get_co_occurrences` attribute, so
`_aggregate_co_occurrences` raises `AttributeError` on the first nest and
no run ever returns: even this complete (empty-horizon) event loop ends
in the `AttributeError` instead of metrics. -/
theorem C2_aggregation_raises_attribute_error :
    Simulator.run (Simulator.init cfgC2 none none) 3 rmC2 =
      .error (.attributeError "get_co_occurrences") := by
  have hgen : generateArrivals defaultTimeWindows 0 = .ok [] := by
    norm_num [generateArrivals, SECONDS_PER_DAY]
  unfold Simulator.run
  dsimp only [Simulator.init, cfgC2, Option.getD]
  rw [hgen]
  rfl

/-! ## Claim C6 -/

/-- Distribution config for C6: pure gamma (`mixture_prob` defaults 1). -/
def distsC6 : List (String × DistCfg) := [("w", { gamma := some ⟨1, 1⟩ })]

/-- Oracle for C6.  `gammavariateF` echoes the raw draw, so the stream
positions 1, 4 and 6 are the three sampled service times (10, 1, and 5
seconds); `randrangeF` picks index 0 of the singleton queue. -/
def rmC6 : RandModel :=
  { stream := fun n => if n = 1 then 10 else if n = 4 then 1 else if n = 6 then 5 else 0,
    expovariateF := fun _ _ => 0, gammavariateF := fun _ _ u => u,
    uniformF := fun _ _ _ => 0, randintF := fun _ _ _ => 0,
    randrangeF := fun _ _ => 0, choicesF := fun _ _ => 0 }

/-- The C6 failing call sequence: timestamps 0 ≤ 5 ≤ 8 ≤ 12 are
non-decreasing and `finalize_metrics` is applied at 12, no earlier than
the last event. -/
def callsC6 : List NestCall :=
  [.arrival 0 1 "w", .arrival 5 2 "w", .exit 8 1 "w", .arrival 12 3 "w"]

/-- C6: the claimed invariant `total_single_hen_duration ≤
total_occupancy_duration` fails on the code.  Hen 1 is served from t=0
with a 10s service; hen 2 queues at t=5 (banking 5s of single-hen time);
the exit at t=8 starts hen 2 with a 1s service (`busy_until` = 9,
`single_hen_start` = 8, `occupancy_start` still 0); the arrival at t=12
satisfies `current_time >= busy_until and not queue`, retakes the
`was_empty` branch and overwrites both still-open interval starts without
accumulating them, losing all the occupancy time but keeping the banked
single-hen time.  Finalizing at 12 yields single = 5 > occupancy = 0. -/
theorem C6_single_hen_exceeds_occupancy :
    (runCalls distsC6 rmC6 callsC6 (Nest.init 0, 0)).map
        (fun s => ((s.1.finalize_metrics 12).total_single_hen_duration,
                   (s.1.finalize_metrics 12).total_occupancy_duration))
      = .ok (5, 0) ∧ ¬ ((5 : ℚ) ≤ 0) := by
  refine ⟨?_, by norm_num⟩
  norm_num [runCalls, callsC6, Nest.init, Nest.handle_arrival, Nest.handle_exit,
    Nest.finalize_metrics, ServiceTimeSampler.sample, lookupCfg, distsC6, rmC6,
    List.find?, Except.map]

/-! ## Claim C3 -/

/-- Distribution config for C3 (pure gamma, `mixture_prob` defaults 1). -/
def distsC3 : List (String × DistCfg) := [("w", { gamma := some ⟨1, 1⟩ })]

/-- Oracle for C3's counterexample: `randrangeF n u = n - 1` models the
perfectly possible `random.randrange(2) = 1` draw; the gamma transform
returns a 1-second service. -/
def rmC3sel : RandModel :=
  { stream := fun _ => 0, expovariateF := fun _ _ => 0,
    gammavariateF := fun _ _ _ => 1, uniformF := fun _ _ _ => 0,
    randintF := fun _ _ _ => 0, randrangeF := fun n _ => n - 1,
    choicesF := fun _ _ => 0 }

/-- A nest with hens 1 (oldest) and 2 waiting while hen 5 is in service. -/
def stC3 : Nest := ⟨0, 10, [1, 2], some 0, 0, none, 0⟩

/-- C3 is false as stated: the discipline is not FIFO.  With queue
`[1, 2]` and the drawn index 1, `handle_exit` starts service for hen 2 —
not the queue head, hen 1 (`nest.py` draws `random.randrange(len(queue))`
and the source comments label the policy SIRO). -/
theorem C3_counterexample_not_fifo :
    (stC3.handle_exit 10 5 distsC3 "w" rmC3sel 0).map (fun r => (r.1, r.2.1)) =
      .ok ([⟨10, 5, 0, "exit"⟩, ⟨10, 2, 0, "entry"⟩], some (11, 2)) ∧
    stC3.queue.head? = some 1 ∧ (2 : ℕ) ≠ 1 := by
  refine ⟨?_, rfl, by norm_num⟩
  norm_num [stC3, Nest.handle_exit, ServiceTimeSampler.sample, lookupCfg, distsC3,
    rmC3sel, List.find?, Except.map]

/-- C3 (amended): the implemented discipline is SIRO, not FIFO.  On every
exit: (empty queue) the nest closes its open metric intervals, sets
`busy_until` to the current time and returns no event; (any outcome) the
first emitted log is the departing hen's exit; (non-empty queue) the hen
that starts service — entry logged, exit scheduled at now plus a fresh
service sample — is the one at the index drawn by
`randrange(len(queue))`, which is the head only when that drawn index is
0 (for instance when a single hen waits). -/
theorem C3_amended_exit_serves_drawn_index (st : Nest) (t : ℚ) (hen : ℕ)
    (dists : List (String × DistCfg)) (w : String) (rm : RandModel) (k : ℕ) :
    (st.queue = [] →
      ∃ st2, st.handle_exit t hen dists w rm k =
          .ok ([⟨t, hen, st.nest_id, "exit"⟩], none, st2, k) ∧ st2.busy_until = t) ∧
    (∀ logs nx st2 k2, st.handle_exit t hen dists w rm k = .ok (logs, nx, st2, k2) →
      logs.head? = some ⟨t, hen, st.nest_id, "exit"⟩) ∧
    (st.queue ≠ [] →
      ∀ logs nx st2 k2, st.handle_exit t hen dists w rm k = .ok (logs, nx, st2, k2) →
        ∃ next_hen s,
          st.queue[rm.randrangeF st.queue.length (rm.stream k)]? = some next_hen ∧
          ServiceTimeSampler.sample dists w rm (k + 1) = .ok (s, k2) ∧
          logs = [⟨t, hen, st.nest_id, "exit"⟩, ⟨t, next_hen, st.nest_id, "entry"⟩] ∧
          nx = some (t + s, next_hen) ∧ st2.busy_until = t + s) := by
  have hemp : st.queue = [] →
      ∃ st2, st.handle_exit t hen dists w rm k =
        .ok ([⟨t, hen, st.nest_id, "exit"⟩], none, st2, k) ∧ st2.busy_until = t := by
    intro hq
    cases h1 : st.single_hen_start <;> cases h2 : st.occupancy_start <;>
      · simp only [Nest.handle_exit, hq, h1, h2]
        exact ⟨_, rfl, rfl⟩
  have hcons : st.queue ≠ [] →
      ∀ logs nx st2 k2, st.handle_exit t hen dists w rm k = .ok (logs, nx, st2, k2) →
        ∃ next_hen s,
          st.queue[rm.randrangeF st.queue.length (rm.stream k)]? = some next_hen ∧
          ServiceTimeSampler.sample dists w rm (k + 1) = .ok (s, k2) ∧
          logs = [⟨t, hen, st.nest_id, "exit"⟩, ⟨t, next_hen, st.nest_id, "entry"⟩] ∧
          nx = some (t + s, next_hen) ∧ st2.busy_until = t + s := by
    intro hq logs nx st2 k2 h
    obtain ⟨q0, qs, hq'⟩ : ∃ q0 qs, st.queue = q0 :: qs := by
      cases hqq : st.queue with
      | nil => exact absurd hqq hq
      | cons a l => exact ⟨a, l, rfl⟩
    rw [hq']
    rw [Nest.handle_exit.eq_def, hq'] at h
    dsimp only at h
    cases hg : (q0 :: qs)[rm.randrangeF (q0 :: qs).length (rm.stream k)]? with
    | none => rw [hg] at h; simp at h
    | some nh =>
      rw [hg] at h
      cases hs : ServiceTimeSampler.sample dists w rm (k + 1) with
      | error e => rw [hs] at h; simp at h
      | ok sk =>
        obtain ⟨s0, k0⟩ := sk
        rw [hs] at h
        simp only [Except.ok.injEq, Prod.mk.injEq] at h
        obtain ⟨h1, h2, h3, h4⟩ := h
        refine ⟨nh, s0, rfl, ?_, h1.symm, h2.symm, ?_⟩
        · rw [← h4]
        · rw [← h3]
  refine ⟨hemp, ?_, hcons⟩
  intro logs nx st2 k2 h
  cases hqq : st.queue with
  | nil =>
    obtain ⟨st2x, heq, _⟩ := hemp hqq
    rw [heq] at h
    simp only [Except.ok.injEq, Prod.mk.injEq] at h
    rw [h.1.symm]
    rfl
  | cons a l =>
    obtain ⟨nh, s, _, _, hlogs, _⟩ :=
      hcons (by rw [hqq]; exact fun c => List.noConfusion c) logs nx st2 k2 h
    rw [hlogs]
    rfl

/-- Witness configuration for C3's amended theorem. -/
def distsC3w : List (String × DistCfg) := [("w", { gamma := some ⟨1, 1⟩ })]

/-- Witness oracle for C3's amended theorem. -/
def rmC3w : RandModel :=
  { stream := fun _ => 0, expovariateF := fun _ _ => 0,
    gammavariateF := fun _ _ _ => 2, uniformF := fun _ _ _ => 0,
    randintF := fun _ _ _ => 0, randrangeF := fun _ _ => 0,
    choicesF := fun _ _ => 0 }

/-- Witness for `C3_amended_exit_serves_drawn_index` at a concrete empty
queue. -/
theorem C3_amended_exit_serves_drawn_index_witness :
    ∃ st2, (Nest.init 0).handle_exit 4 9 distsC3w "w" rmC3w 0 =
        .ok ([⟨4, 9, (Nest.init 0).nest_id, "exit"⟩], none, st2, 0) ∧ st2.busy_until = 4 :=
  (C3_amended_exit_serves_drawn_index (Nest.init 0) 4 9 distsC3w "w" rmC3w 0).1 rfl

/-! ## Claim C5 -/

/-- A fold of `min` over elements all above `t` stays above `t`. -/
theorem listMinQ_foldl_gt {t acc : ℚ} {l : List ℚ} (hacc : t < acc)
    (hl : ∀ x ∈ l, t < x) : t < l.foldl min acc := by
  induction l generalizing acc with
  | nil => exact hacc
  | cons y ys ih =>
    exact ih (lt_min hacc (hl y (List.mem_cons_self y ys)))
      (fun x hx => hl x (List.mem_cons_of_mem y hx))

/-- Python's `min` of a list of values all above `t` is above `t`. -/
theorem listMinQ_gt {t m : ℚ} {l : List ℚ} (hl : ∀ x ∈ l, t < x)
    (hm : listMinQ l = some m) : t < m := by
  cases l with
  | nil => cases hm
  | cons x xs =>
    have hfold : xs.foldl min x = m := by
      simpa [listMinQ] using hm
    rw [← hfold]
    exact listMinQ_foldl_gt (hl x (List.mem_cons_self x xs))
      (fun y hy => hl y (List.mem_cons_of_mem x hy))

/-- Every boundary candidate lies strictly in the future: the start-hour
occurrence on the current day is pushed a day later when not after `t`,
and a day's worth of push always clears `t`. -/
theorem boundaryCandidate_gt (t : ℚ) (tw : TimeWindow) : t < boundaryCandidate t tw := by
  unfold boundaryCandidate
  have hS : (0 : ℚ) < SECONDS_PER_DAY := by norm_num [SECONDS_PER_DAY]
  have h1 : ((⌊t / SECONDS_PER_DAY⌋ : ℤ) : ℚ) * SECONDS_PER_DAY ≤ t := by
    have hfl : ((⌊t / SECONDS_PER_DAY⌋ : ℤ) : ℚ) ≤ t / SECONDS_PER_DAY :=
      Int.floor_le _
    have hmul := mul_le_mul_of_nonneg_right hfl hS.le
    rwa [div_mul_cancel₀ t hS.ne'] at hmul
  have h2 : t < ((⌊t / SECONDS_PER_DAY⌋ : ℤ) : ℚ) * SECONDS_PER_DAY + SECONDS_PER_DAY := by
    have hfl : t / SECONDS_PER_DAY < ((⌊t / SECONDS_PER_DAY⌋ : ℤ) : ℚ) + 1 :=
      Int.lt_floor_add_one _
    have hmul := mul_lt_mul_of_pos_right hfl hS
    rw [div_mul_cancel₀ t hS.ne', add_mul, one_mul] at hmul
    exact hmul
  have h3 : (0 : ℚ) ≤ (tw.startH : ℚ) * 3600 := by positivity
  dsimp only
  split
  · linarith
  · next hc => linarith [not_le.mp hc]

/-- `_next_boundary_seconds` always returns a time strictly after `t`. -/
theorem nextBoundarySeconds_gt (tws : List (String × TimeWindow)) (t b : ℚ)
    (h : nextBoundarySeconds tws t = some b) : t < b := by
  unfold nextBoundarySeconds at h
  refine listMinQ_gt ?_ h
  intro x hx
  simp only [List.mem_map] at hx
  obtain ⟨nw, _, rfl⟩ := hx
  exact boundaryCandidate_gt t nw.2

/-- Loop invariant of the (spec-modelled-rate) arrival generator: from a
non-negative current time and an accumulator of already-recorded arrivals
that are at most `t`, reverse-sorted, within `[0, total]` and whose
recorded window was the active window at some time at or before the
arrival, every successful run yields a list sorted by timestamp whose
elements all satisfy those bounds and window conditions. -/
theorem genLoop_ok_props (tws : List (String × TimeWindow))
    (dists : List (String × DistCfg)) (hens : ℕ) (rm : RandModel) (total : ℚ)
    (he : ∀ r u, 0 ≤ rm.expovariateF r u) :
    ∀ fuel t k acc res,
      0 ≤ t →
      (∀ a ∈ acc, a.ts ≤ t) →
      acc.Pairwise (fun a b => b.ts ≤ a.ts) →
      (∀ a ∈ acc, (0 ≤ a.ts ∧ a.ts ≤ total) ∧
          ∃ u, 0 ≤ u ∧ u ≤ a.ts ∧ windowForTime tws u = Except.ok a.window) →
      genLoop tws dists hens rm total fuel t k acc = .ok res →
      res.Pairwise (fun a b => a.ts ≤ b.ts) ∧
      ∀ a ∈ res, (0 ≤ a.ts ∧ a.ts ≤ total) ∧
        ∃ u, 0 ≤ u ∧ u ≤ a.ts ∧ windowForTime tws u = Except.ok a.window := by
  intro fuel
  induction fuel with
  | zero =>
    intro t k acc res _ _ _ _ hrun
    rw [genLoop] at hrun
    cases hrun
  | succ n ih =>
    intro t k acc res ht hacc hpw hprops hrun
    rw [genLoop] at hrun
    by_cases htt : t < total
    · rw [if_pos htt] at hrun
      cases hw : windowForTime tws t with
      | error e => rw [hw] at hrun; dsimp only at hrun; cases hrun
      | ok w =>
        rw [hw] at hrun
        dsimp only at hrun
        cases hr : arrivalRatePerSecondSpec dists w with
        | error e => rw [hr] at hrun; dsimp only at hrun; cases hrun
        | ok rate =>
          rw [hr] at hrun
          dsimp only at hrun
          cases hb : nextBoundarySeconds tws t with
          | none => rw [hb] at hrun; dsimp only at hrun; cases hrun
          | some b =>
            rw [hb] at hrun
            dsimp only at hrun
            have htb : t < b := nextBoundarySeconds_gt tws t b hb
            by_cases hrate : rate ≤ 0
            · rw [if_pos hrate] at hrun
              exact ih (min b total) k acc res
                (le_trans ht (le_min htb.le htt.le))
                (fun a ha => le_trans (hacc a ha) (le_min htb.le htt.le))
                hpw hprops hrun
            · rw [if_neg hrate] at hrun
              have hdt : 0 ≤ rm.expovariateF rate (rm.stream k) := he _ _
              by_cases hsnap : b ≤ t + rm.expovariateF rate (rm.stream k)
              · rw [if_pos hsnap] at hrun
                exact ih b (k + 1) acc res (le_trans ht htb.le)
                  (fun a ha => le_trans (hacc a ha) htb.le) hpw hprops hrun
              · rw [if_neg hsnap] at hrun
                by_cases hbrk : total < t + rm.expovariateF rate (rm.stream k)
                · rw [if_pos hbrk] at hrun
                  have hres : acc.reverse = res := by
                    simpa using hrun
                  subst hres
                  exact ⟨List.pairwise_reverse.mpr hpw,
                    fun a ha => hprops a (List.mem_reverse.mp ha)⟩
                · rw [if_neg hbrk] at hrun
                  refine ih (t + rm.expovariateF rate (rm.stream k)) (k + 2)
                    (⟨t + rm.expovariateF rate (rm.stream k),
                      rm.randintF 1 hens (rm.stream (k + 1)), w⟩ :: acc) res
                    (by linarith) ?_ ?_ ?_ hrun
                  · intro a ha
                    rcases List.mem_cons.mp ha with rfl | hmem
                    · exact le_refl _
                    · have := hacc a hmem
                      linarith
                  · refine List.Pairwise.cons ?_ hpw
                    intro a ha
                    have := hacc a ha
                    dsimp only
                    linarith
                  · intro a ha
                    rcases List.mem_cons.mp ha with rfl | hmem
                    · refine ⟨⟨by dsimp only; linarith, ?_⟩, t, ht,
                        by dsimp only; linarith, hw⟩
                      dsimp only
                      linarith [not_lt.mp hbrk]
                    · exact hprops a hmem
    · rw [if_neg htt] at hrun
      have hres : acc.reverse = res := by
        simpa using hrun
      subst hres
      exact ⟨List.pairwise_reverse.mpr hpw,
        fun a ha => hprops a (List.mem_reverse.mp ha)⟩

/-- C5 (amended): for every window/distribution configuration, horizon
and random stream (with the spec-modelled per-second rate accessor and
the non-negativity of exponential gaps that `random.expovariate`
guarantees), a returned arrival list is sorted by timestamp and every
timestamp lies in the closed interval `[0, duration_days * 86400]` — an
arrival can land exactly on the horizon, so the right end is attainable —
and each arrival's recorded window was the active window
(`window_for_time`) at some time `u ≤` its timestamp, namely when its
inter-arrival gap was drawn; it need not equal `window_for_time` at the
arrival instant itself. -/
theorem C5_amended_generated_arrivals (tws : List (String × TimeWindow))
    (dists : List (String × DistCfg)) (hens : ℕ) (rm : RandModel)
    (duration_days fuel : ℕ) (res : List Arrival)
    (he : ∀ r u, 0 ≤ rm.expovariateF r u)
    (h : generateArrivalsSpec tws dists hens rm duration_days fuel = .ok res) :
    res.Pairwise (fun a b => a.ts ≤ b.ts) ∧
    ∀ a ∈ res, (0 ≤ a.ts ∧ a.ts ≤ (duration_days : ℚ) * SECONDS_PER_DAY) ∧
      ∃ u, 0 ≤ u ∧ u ≤ a.ts ∧ windowForTime tws u = Except.ok a.window :=
  genLoop_ok_props tws dists hens rm _ he fuel 0 0 [] res le_rfl
    (by simp) (by simp) (by simp) h

/-- C5 counterexample windows, endpoint case: the wrap-around window
`A: start 1, end 0` covers every hour, and its only start hour (1) means
no boundary falls in `(3600, 90000)`. -/
def twC5e : List (String × TimeWindow) := [("A", ⟨1, 0⟩)]

/-- C5 endpoint-case distributions: one arrival per second in `A`. -/
def distsC5e : List (String × DistCfg) := [("A", { arrival_rate_per_hour := some 3600 })]

/-- C5 endpoint-case oracle: gaps 3600 then 82800 put the second draw at
exactly `t = 86400`, the horizon. -/
def rmC5e : RandModel :=
  { stream := fun n => (n : ℚ),
    expovariateF := fun _ u => if u = 0 then 3600 else 82800,
    gammavariateF := fun _ _ _ => 0, uniformF := fun _ _ _ => 0,
    randintF := fun _ _ _ => 7, randrangeF := fun _ _ => 0,
    choicesF := fun _ _ => 0 }

/-- C5 counterexample windows, stale-window case: `A: 0–4` is listed
first, `B: 3–23` second; first-match changes from A to B between hours 4
and 5 with no window *start* (hence no boundary) in between. -/
def twC5s : List (String × TimeWindow) := [("A", ⟨0, 4⟩), ("B", ⟨3, 23⟩)]

/-- C5 stale-case distributions: rate 1/s in `A`, rate 0 in `B`. -/
def distsC5s : List (String × DistCfg) :=
  [("A", { arrival_rate_per_hour := some 3600 }),
   ("B", { arrival_rate_per_hour := some 0 })]

/-- C5 stale-case oracle: gaps 10800 then 7200 record an arrival at
`t = 18000` (hour 5) using window `A` fetched at `t = 10800` (hour 3). -/
def rmC5s : RandModel :=
  { stream := fun n => (n : ℚ),
    expovariateF := fun _ u => if u = 0 then 10800 else 7200,
    gammavariateF := fun _ _ _ => 0, uniformF := fun _ _ _ => 0,
    randintF := fun _ _ _ => 7, randrangeF := fun _ _ => 0,
    choicesF := fun _ _ => 0 }

/-- One-step reading of `genLoop` when the horizon is reached: return the
accumulated arrivals. -/
theorem genLoop_done (tws : List (String × TimeWindow)) (dists : List (String × DistCfg))
    (hens : ℕ) (rm : RandModel) (total : ℚ) (fuel : ℕ) (t : ℚ) (k : ℕ)
    (acc : List Arrival) (h : ¬ t < total) :
    genLoop tws dists hens rm total (fuel + 1) t k acc = .ok acc.reverse := by
  rw [genLoop, if_neg h]

/-- One-step reading of `genLoop` when no window covers the current time:
the `ValueError` propagates. -/
theorem genLoop_window_error (tws : List (String × TimeWindow))
    (dists : List (String × DistCfg)) (hens : ℕ) (rm : RandModel) (total : ℚ)
    (fuel : ℕ) (t : ℚ) (k : ℕ) (acc : List Arrival) (e : PyErr)
    (htt : t < total) (hw : windowForTime tws t = .error e) :
    genLoop tws dists hens rm total (fuel + 1) t k acc = .error e := by
  rw [genLoop, if_pos htt, hw]

/-- One-step reading of `genLoop` in a zero-rate window: jump to the next
boundary (or the horizon). -/
theorem genLoop_zero_rate (tws : List (String × TimeWindow))
    (dists : List (String × DistCfg)) (hens : ℕ) (rm : RandModel) (total : ℚ)
    (fuel : ℕ) (t : ℚ) (k : ℕ) (acc : List Arrival) (w : String) (rate b : ℚ)
    (htt : t < total) (hw : windowForTime tws t = .ok w)
    (hr : arrivalRatePerSecondSpec dists w = .ok rate)
    (hb : nextBoundarySeconds tws t = some b) (hrate : rate ≤ 0) :
    genLoop tws dists hens rm total (fuel + 1) t k acc =
      genLoop tws dists hens rm total fuel (min b total) k acc := by
  rw [genLoop, if_pos htt, hw]
  dsimp only
  rw [hr]
  dsimp only
  rw [hb]
  dsimp only
  rw [if_pos hrate]

/-- One-step reading of `genLoop` when the drawn gap crosses the boundary:
snap to the boundary without recording an arrival. -/
theorem genLoop_snap (tws : List (String × TimeWindow))
    (dists : List (String × DistCfg)) (hens : ℕ) (rm : RandModel) (total : ℚ)
    (fuel : ℕ) (t : ℚ) (k : ℕ) (acc : List Arrival) (w : String) (rate b : ℚ)
    (htt : t < total) (hw : windowForTime tws t = .ok w)
    (hr : arrivalRatePerSecondSpec dists w = .ok rate)
    (hb : nextBoundarySeconds tws t = some b) (hrate : ¬ rate ≤ 0)
    (hsnap : b ≤ t + rm.expovariateF rate (rm.stream k)) :
    genLoop tws dists hens rm total (fuel + 1) t k acc =
      genLoop tws dists hens rm total fuel b (k + 1) acc := by
  rw [genLoop, if_pos htt, hw]
  dsimp only
  rw [hr]
  dsimp only
  rw [hb]
  dsimp only
  rw [if_neg hrate, if_pos hsnap]

/-- One-step reading of `genLoop` when the drawn gap stays inside the
window and the horizon: record the arrival and advance. -/
theorem genLoop_emit (tws : List (String × TimeWindow))
    (dists : List (String × DistCfg)) (hens : ℕ) (rm : RandModel) (total : ℚ)
    (fuel : ℕ) (t : ℚ) (k : ℕ) (acc : List Arrival) (w : String) (rate b : ℚ)
    (htt : t < total) (hw : windowForTime tws t = .ok w)
    (hr : arrivalRatePerSecondSpec dists w = .ok rate)
    (hb : nextBoundarySeconds tws t = some b) (hrate : ¬ rate ≤ 0)
    (hsnap : ¬ b ≤ t + rm.expovariateF rate (rm.stream k))
    (hbrk : ¬ total < t + rm.expovariateF rate (rm.stream k)) :
    genLoop tws dists hens rm total (fuel + 1) t k acc =
      genLoop tws dists hens rm total fuel
        (t + rm.expovariateF rate (rm.stream k)) (k + 2)
        (⟨t + rm.expovariateF rate (rm.stream k),
          rm.randintF 1 hens (rm.stream (k + 1)), w⟩ :: acc) := by
  rw [genLoop, if_pos htt, hw]
  dsimp only
  rw [hr]
  dsimp only
  rw [hb]
  dsimp only
  rw [if_neg hrate, if_neg hsnap, if_neg hbrk]

/-- Shared floor evaluations for the concrete C5 walks. -/
theorem c5_floor_facts :
    (⌊(3600 : ℚ) / 86400⌋ : ℤ) = 0 ∧ (⌊(1 / 24 : ℚ)⌋ : ℤ) = 0 ∧
    (⌊(10800 : ℚ) / 86400⌋ : ℤ) = 0 ∧ (⌊(1 / 8 : ℚ)⌋ : ℤ) = 0 ∧
    (⌊(18000 : ℚ) / 86400⌋ : ℤ) = 0 ∧ (⌊(5 / 24 : ℚ)⌋ : ℤ) = 0 := by
  refine ⟨?_, ?_, ?_, ?_, ?_, ?_⟩ <;> (rw [Int.floor_eq_iff]; norm_num)

/-- The endpoint walk: gaps 3600 and 82800 snap to the 03600 boundary and
then record an arrival at exactly `t = 86400`, the one-day horizon. -/
theorem c5e_eval :
    generateArrivalsSpec twC5e distsC5e 100 rmC5e 1 10 = .ok [⟨86400, 7, "A"⟩] := by
  obtain ⟨hf36, hf36h, -, -, -, -⟩ := c5_floor_facts
  have hw0 : windowForTime twC5e 0 = .ok "A" := by
    norm_num [windowForTime, pymod, SECONDS_PER_DAY, inWindow, List.find?, twC5e]
  have hw36 : windowForTime twC5e 3600 = .ok "A" := by
    norm_num [windowForTime, pymod, SECONDS_PER_DAY, inWindow, List.find?, twC5e,
      hf36, hf36h]
  have hrA : arrivalRatePerSecondSpec distsC5e "A" = .ok 1 := by
    norm_num [arrivalRatePerSecondSpec, ServiceTimeSampler.arrival_rate_per_hour,
      lookupCfg, List.find?, distsC5e]
  have hnb0 : nextBoundarySeconds twC5e 0 = some 3600 := by
    norm_num [nextBoundarySeconds, listMinQ, boundaryCandidate, SECONDS_PER_DAY,
      twC5e]
  have hnb36 : nextBoundarySeconds twC5e 3600 = some 90000 := by
    norm_num [nextBoundarySeconds, listMinQ, boundaryCandidate, SECONDS_PER_DAY,
      twC5e, hf36, hf36h]
  have hd0 : rmC5e.expovariateF 1 (rmC5e.stream 0) = 3600 := by
    norm_num [rmC5e]
  have hd1 : rmC5e.expovariateF 1 (rmC5e.stream (0 + 1)) = 82800 := by
    norm_num [rmC5e]
  have hh2 : rmC5e.randintF 1 100 (rmC5e.stream (0 + 1 + 1)) = 7 := by
    norm_num [rmC5e]
  unfold generateArrivalsSpec
  have htot : ((1 : ℕ) : ℚ) * SECONDS_PER_DAY = 86400 := by
    norm_num [SECONDS_PER_DAY]
  rw [htot]
  refine (genLoop_snap twC5e distsC5e 100 rmC5e 86400 9 0 0 [] "A" 1 3600
    (by norm_num) hw0 hrA hnb0 (by norm_num) (by rw [hd0]; norm_num)).trans ?_
  refine (genLoop_emit twC5e distsC5e 100 rmC5e 86400 8 3600 (0 + 1) [] "A" 1 90000
    (by norm_num) hw36 hrA hnb36 (by norm_num) (by rw [hd1]; norm_num)
    (by rw [hd1]; norm_num)).trans ?_
  rw [hd1, hh2]
  norm_num
  exact (genLoop_done twC5e distsC5e 100 rmC5e 86400 7 86400 3 [⟨86400, 7, "A"⟩]
    (by norm_num)).trans rfl

/-- The window active at `t = 18000` (hour 5) under the stale-case
configuration is `B`, not `A`. -/
theorem c5s_window_at_18000 : windowForTime twC5s 18000 = .ok "B" := by
  obtain ⟨-, -, -, -, hf180, hf180h⟩ := c5_floor_facts
  norm_num [windowForTime, pymod, SECONDS_PER_DAY, inWindow, List.find?, twC5s,
    hf180, hf180h]

/-- The stale-window walk: the window `A` fetched at `t = 10800` (hour 3)
is recorded on the arrival landing at `t = 18000` (hour 5), where the
first matching window is already `B`; the run then jumps over `B`'s
zero-rate stretch and returns. -/
theorem c5s_eval :
    generateArrivalsSpec twC5s distsC5s 100 rmC5s 1 10 = .ok [⟨18000, 7, "A"⟩] := by
  obtain ⟨-, -, hf108, hf108h, hf180, hf180h⟩ := c5_floor_facts
  have hAB : (decide ("A" = "B")) = false := by decide
  have hw0 : windowForTime twC5s 0 = .ok "A" := by
    norm_num [windowForTime, pymod, SECONDS_PER_DAY, inWindow, List.find?, twC5s]
  have hw108 : windowForTime twC5s 10800 = .ok "A" := by
    norm_num [windowForTime, pymod, SECONDS_PER_DAY, inWindow, List.find?, twC5s,
      hf108, hf108h]
  have hrA : arrivalRatePerSecondSpec distsC5s "A" = .ok 1 := by
    norm_num [arrivalRatePerSecondSpec, ServiceTimeSampler.arrival_rate_per_hour,
      lookupCfg, List.find?, distsC5s]
  have hrB : arrivalRatePerSecondSpec distsC5s "B" = .ok 0 := by
    norm_num [arrivalRatePerSecondSpec, ServiceTimeSampler.arrival_rate_per_hour,
      lookupCfg, List.find?, distsC5s, hAB]
  have hnb0 : nextBoundarySeconds twC5s 0 = some 10800 := by
    norm_num [nextBoundarySeconds, listMinQ, boundaryCandidate, SECONDS_PER_DAY,
      twC5s, min_def]
  have hnb108 : nextBoundarySeconds twC5s 10800 = some 86400 := by
    norm_num [nextBoundarySeconds, listMinQ, boundaryCandidate, SECONDS_PER_DAY,
      twC5s, min_def, hf108, hf108h]
  have hnb180 : nextBoundarySeconds twC5s 18000 = some 86400 := by
    norm_num [nextBoundarySeconds, listMinQ, boundaryCandidate, SECONDS_PER_DAY,
      twC5s, min_def, hf180, hf180h]
  have hd0 : rmC5s.expovariateF 1 (rmC5s.stream 0) = 10800 := by
    norm_num [rmC5s]
  have hd1 : rmC5s.expovariateF 1 (rmC5s.stream (0 + 1)) = 7200 := by
    norm_num [rmC5s]
  have hh2 : rmC5s.randintF 1 100 (rmC5s.stream (0 + 1 + 1)) = 7 := by
    norm_num [rmC5s]
  unfold generateArrivalsSpec
  have htot : ((1 : ℕ) : ℚ) * SECONDS_PER_DAY = 86400 := by
    norm_num [SECONDS_PER_DAY]
  rw [htot]
  refine (genLoop_snap twC5s distsC5s 100 rmC5s 86400 9 0 0 [] "A" 1 10800
    (by norm_num) hw0 hrA hnb0 (by norm_num) (by rw [hd0]; norm_num)).trans ?_
  refine (genLoop_emit twC5s distsC5s 100 rmC5s 86400 8 10800 (0 + 1) [] "A" 1 86400
    (by norm_num) hw108 hrA hnb108 (by norm_num) (by rw [hd1]; norm_num)
    (by rw [hd1]; norm_num)).trans ?_
  rw [hd1, hh2]
  norm_num
  refine (genLoop_zero_rate twC5s distsC5s 100 rmC5s 86400 7 18000 3
    [⟨18000, 7, "A"⟩] "B" 0 86400 (by norm_num) c5s_window_at_18000 hrB hnb180
    le_rfl).trans ?_
  rw [min_self]
  exact (genLoop_done twC5s distsC5s 100 rmC5s 86400 6 86400 3 [⟨18000, 7, "A"⟩]
    (by norm_num)).trans rfl

/-- C5 is false as stated, on two counts.  Endpoint: the generator can
return an arrival with timestamp exactly `duration_days * 86400`, outside
the claimed half-open interval (the `if t > total_seconds: break` test is
strict).  Stale window: a returned arrival's recorded window can differ
from `window_for_time` at its own timestamp, because the recorded window
was fetched at the gap-drawing time and only window *starts* are
boundaries — a window *end* inside a boundary-free span changes the
first-matching window without snapping. -/
theorem C5_counterexample_endpoint_and_stale_window :
    (generateArrivalsSpec twC5e distsC5e 100 rmC5e 1 10 = .ok [⟨86400, 7, "A"⟩] ∧
      ¬ ((86400 : ℚ) < ((1 : ℕ) : ℚ) * SECONDS_PER_DAY)) ∧
    (generateArrivalsSpec twC5s distsC5s 100 rmC5s 1 10 = .ok [⟨18000, 7, "A"⟩] ∧
      windowForTime twC5s 18000 = .ok "B" ∧ "A" ≠ "B") :=
  ⟨⟨c5e_eval, by norm_num [SECONDS_PER_DAY]⟩,
   ⟨c5s_eval, c5s_window_at_18000, by decide⟩⟩

/-- Witness for `C5_amended_generated_arrivals` on the concrete endpoint
run: its single arrival sits exactly on the closed interval's right end. -/
theorem C5_amended_generated_arrivals_witness :
    (∀ r u, 0 ≤ rmC5e.expovariateF r u) ∧
    generateArrivalsSpec twC5e distsC5e 100 rmC5e 1 10 = .ok [⟨86400, 7, "A"⟩] ∧
    ([⟨86400, 7, "A"⟩] : List Arrival).Pairwise (fun a b => a.ts ≤ b.ts) ∧
    ∀ a ∈ ([⟨86400, 7, "A"⟩] : List Arrival),
      (0 ≤ a.ts ∧ a.ts ≤ ((1 : ℕ) : ℚ) * SECONDS_PER_DAY) ∧
      ∃ u, 0 ≤ u ∧ u ≤ a.ts ∧ windowForTime twC5e u = Except.ok a.window := by
  have hnn : ∀ r u, 0 ≤ rmC5e.expovariateF r u := by
    intro r u
    dsimp [rmC5e]
    split <;> norm_num
  have happ := C5_amended_generated_arrivals twC5e distsC5e 100 rmC5e 1 10
    [⟨86400, 7, "A"⟩] hnn c5e_eval
  exact ⟨hnn, c5e_eval, happ.1, happ.2⟩

/-! ## Claim C10 -/

/-- The hour-of-day computation of `window_for_time` on a first-day time
`3600 * h` with `0 ≤ h < 24` is just `h`. -/
theorem hourOf (h : ℚ) (h0 : 0 ≤ h) (h24 : h < 24) :
    pymod (3600 * h) SECONDS_PER_DAY / 3600 = h := by
  have hf : (⌊3600 * h / SECONDS_PER_DAY⌋ : ℤ) = 0 := by
    rw [Int.floor_eq_iff]
    constructor
    · push_cast
      rw [SECONDS_PER_DAY]
      positivity
    · push_cast
      rw [SECONDS_PER_DAY, zero_add, div_lt_one (by norm_num)]
      linarith
  unfold pymod
  rw [hf]
  push_cast
  ring

/-- Distribution config for C10's mid-generation failure: the `notte`
window has one arrival per second; the walk never needs the others. -/
def distsC10 : List (String × DistCfg) :=
  [("notte", { arrival_rate_per_hour := some 3600 })]

/-- Oracle for C10: the single exponential gap drawn is 16500 s, landing
the first arrival at `t = 16500` (hour 55/12 ∈ (4, 5), a coverage hole). -/
def rmC10 : RandModel :=
  { stream := fun _ => 0, expovariateF := fun _ _ => 16500,
    gammavariateF := fun _ _ _ => 0, uniformF := fun _ _ _ => 0,
    randintF := fun _ _ _ => 7, randrangeF := fun _ _ => 0,
    choicesF := fun _ _ => 0 }

/-- C10: with no explicit `time_windows`, `Simulator.__init__` installs
the defaults notte 20–4, giorno 5–15, sera 16–19; under the
inclusive-bounds membership test every hour strictly inside (4,5),
(15,16) or (19,20) is covered by no window and `window_for_time` raises
`ValueError` there; consequently a default-configured run can fail
mid-simulation — concretely, arrival generation (under the spec-modelled
per-second rate accessor) emits an arrival at t = 16500 inside the
notte window's active stretch and then dies on the next iteration with
the ValueError for its landing hour 55/12 ∈ (4,5). -/
theorem C10_default_windows_leave_holes :
    (∀ cfg seed, (Simulator.init cfg none seed).time_windows = defaultTimeWindows) ∧
    (∀ h : ℚ, ((4 < h ∧ h < 5) ∨ (15 < h ∧ h < 16) ∨ (19 < h ∧ h < 20)) →
        windowForTime defaultTimeWindows (3600 * h) =
          .error (.valueErrorNoWindow h)) ∧
    generateArrivalsSpec defaultTimeWindows distsC10 100 rmC10 1 10 =
      .error (.valueErrorNoWindow (55 / 12)) := by
  refine ⟨fun cfg seed => rfl, ?_, ?_⟩
  · intro h hh
    rcases hh with ⟨ha, hb⟩ | ⟨ha, hb⟩ | ⟨ha, hb⟩ <;>
    · have hhour := hourOf h (by linarith) (by linarith)
      have w1 : inWindow h 20 4 = false := by
        unfold inWindow
        rw [if_neg (by norm_num)]
        exact decide_eq_false (by push_cast; rintro (hc | hc) <;> linarith)
      have w2 : inWindow h 5 15 = false := by
        unfold inWindow
        rw [if_pos (by norm_num)]
        exact decide_eq_false (by push_cast; rintro ⟨hc1, hc2⟩; linarith)
      have w3 : inWindow h 16 19 = false := by
        unfold inWindow
        rw [if_pos (by norm_num)]
        exact decide_eq_false (by push_cast; rintro ⟨hc1, hc2⟩; linarith)
      have hfind : defaultTimeWindows.find?
          (fun nw => inWindow h nw.2.startH nw.2.endH) = none := by
        simp [defaultTimeWindows, List.find?, w1, w2, w3]
      unfold windowForTime
      rw [hhour]
      simp only [hfind]
  · have hfA : (⌊(16500 : ℚ) / SECONDS_PER_DAY⌋ : ℤ) = 0 := by
      rw [Int.floor_eq_iff]
      norm_num [SECONDS_PER_DAY]
    have hfB : (⌊(55 / 288 : ℚ)⌋ : ℤ) = 0 := by
      rw [Int.floor_eq_iff]
      norm_num
    have e1 : windowForTime defaultTimeWindows 0 = .ok "notte" := by
      norm_num [windowForTime, pymod, SECONDS_PER_DAY, inWindow, List.find?,
        defaultTimeWindows]
    have e2 : arrivalRatePerSecondSpec distsC10 "notte" = .ok 1 := by
      norm_num [arrivalRatePerSecondSpec, ServiceTimeSampler.arrival_rate_per_hour,
        lookupCfg, List.find?, distsC10]
    have e3 : nextBoundarySeconds defaultTimeWindows 0 = some 18000 := by
      norm_num [nextBoundarySeconds, listMinQ, boundaryCandidate, SECONDS_PER_DAY,
        defaultTimeWindows, min_def]
    have e4 : windowForTime defaultTimeWindows 16500 =
        .error (.valueErrorNoWindow (55 / 12)) := by
      norm_num [windowForTime, pymod, SECONDS_PER_DAY, inWindow, List.find?,
        defaultTimeWindows, hfA, hfB]
    have hd0 : rmC10.expovariateF 1 (rmC10.stream 0) = 16500 := by
      norm_num [rmC10]
    unfold generateArrivalsSpec
    have htot : ((1 : ℕ) : ℚ) * SECONDS_PER_DAY = 86400 := by
      norm_num [SECONDS_PER_DAY]
    rw [htot]
    refine (genLoop_emit defaultTimeWindows distsC10 100 rmC10 86400 9 0 0 []
      "notte" 1 18000 (by norm_num) e1 e2 e3 (by norm_num)
      (by rw [hd0]; norm_num) (by rw [hd0]; norm_num)).trans ?_
    rw [hd0, zero_add]
    exact genLoop_window_error defaultTimeWindows distsC10 100 rmC10 86400 8 16500
      (0 + 2) [⟨16500, rmC10.randintF 1 100 (rmC10.stream (0 + 1)), "notte"⟩]
      (.valueErrorNoWindow (55 / 12)) (by norm_num) e4

/-- Witness for `C10_default_windows_leave_holes` at the concrete hole
hour 9/2. -/
theorem C10_default_windows_leave_holes_witness :
    ((4 : ℚ) < 9 / 2 ∧ (9 / 2 : ℚ) < 5) ∧
    windowForTime defaultTimeWindows (3600 * (9 / 2)) =
      .error (.valueErrorNoWindow (9 / 2)) :=
  ⟨by norm_num,
   C10_default_windows_leave_holes.2.1 (9 / 2) (Or.inl (by norm_num))⟩

/-! ## Claim C4 -/

/-- C4 (amended): neither a window-coverage hole nor a missing window
distribution is detected at construction.  `Simulator.__init__` (and
`ServiceTimeSampler.__init__`, which merely stores the config dict)
perform no validation and always complete, storing the windows untouched
and building the nests regardless of the configuration's content; the
`ValueError` for an uncovered hour is raised only inside `run()` — at
the first `window_for_time` lookup during arrival generation (or, for
holes reached later, mid-loop at exit processing), never before. -/
theorem C4_config_errors_raised_in_run_not_init :
    (∀ cfg tw seed, (Simulator.init cfg (some tw) seed).time_windows = tw ∧
        (Simulator.init cfg (some tw) seed).nests = (List.range cfg.n_nests).map Nest.init) ∧
    (∀ cfg tw seed fuel rm e, 0 < cfg.duration_days →
        windowForTime tw 0 = .error e →
        Simulator.run (Simulator.init cfg (some tw) seed) fuel rm = .error e) := by
  constructor
  · intro cfg tw seed
    exact ⟨rfl, rfl⟩
  · intro cfg tw seed fuel rm e hd hw
    have hpos : (0 : ℚ) < (cfg.duration_days : ℚ) * SECONDS_PER_DAY := by
      have hdq : (0 : ℚ) < (cfg.duration_days : ℚ) := by exact_mod_cast hd
      have hsq : (0 : ℚ) < SECONDS_PER_DAY := by norm_num [SECONDS_PER_DAY]
      exact mul_pos hdq hsq
    have hgen : generateArrivals tw cfg.duration_days = .error e := by
      unfold generateArrivals
      rw [if_pos hpos, hw]
    exact Simulator.run_error_of_generate_error _ fuel rm e hgen

/-- C4 counterexample config: the single window `giorno 5–15` leaves
hour 0 uncovered, and the simulation lasts one day. -/
def twC4 : List (String × TimeWindow) := [("giorno", ⟨5, 15⟩)]

/-- C4 counterexample `sim_config`. -/
def cfgC4 : SimConfig := ⟨"pre_1", 1, none, [], 1⟩

/-- C4 counterexample oracle (no draw is consumed before the error). -/
def rmC4 : RandModel :=
  { stream := fun _ => 0, expovariateF := fun _ _ => 0,
    gammavariateF := fun _ _ _ => 0, uniformF := fun _ _ _ => 0,
    randintF := fun _ _ _ => 0, randrangeF := fun _ _ => 0,
    choicesF := fun _ _ => 0 }

/-- C4 is false as stated: for this configuration with a coverage hole at
hour 0, `Simulator.__init__` completes normally (it builds the nest list
and raises nothing — it contains no validation code), and the
configuration `ValueError` is raised only by `run`, i.e. after
construction, not "before or during Simulator construction". -/
theorem C4_counterexample_init_accepts_hole :
    (Simulator.init cfgC4 (some twC4) none).nests = [Nest.init 0] ∧
    (Simulator.init cfgC4 (some twC4) none).time_windows = twC4 ∧
    Simulator.run (Simulator.init cfgC4 (some twC4) none) 3 rmC4 =
      .error (.valueErrorNoWindow 0) := by
  refine ⟨by norm_num [Simulator.init, cfgC4, List.range_succ], rfl, ?_⟩
  have hw : windowForTime twC4 0 = .error (.valueErrorNoWindow 0) := by
    norm_num [windowForTime, twC4, pymod, SECONDS_PER_DAY, inWindow, List.find?]
  have hpos : (0 : ℚ) < ((1 : ℕ) : ℚ) * SECONDS_PER_DAY := by
    norm_num [SECONDS_PER_DAY]
  have hgen : generateArrivals twC4 1 = .error (.valueErrorNoWindow 0) := by
    unfold generateArrivals
    rw [if_pos hpos, hw]
  exact Simulator.run_error_of_generate_error _ 3 rmC4 _ hgen

/-- Witness for `C4_config_errors_raised_in_run_not_init` at the concrete
hole configuration. -/
theorem C4_config_errors_raised_in_run_not_init_witness :
    0 < cfgC4.duration_days ∧
    windowForTime twC4 0 = .error (.valueErrorNoWindow 0) ∧
    Simulator.run (Simulator.init cfgC4 (some twC4) none) 3 rmC4 =
      .error (.valueErrorNoWindow 0) :=
  ⟨by norm_num [cfgC4],
   by norm_num [windowForTime, twC4, pymod, SECONDS_PER_DAY, inWindow, List.find?],
   C4_config_errors_raised_in_run_not_init.2 cfgC4 twC4 none 3 rmC4 _
     (by norm_num [cfgC4])
     (by norm_num [windowForTime, twC4, pymod, SECONDS_PER_DAY, inWindow, List.find?])⟩

/-! ## Claim C8 -/

/-- C8: `sample(window)` with a registered configuration carrying both
mixture components draws one unit uniform (`random.random()`, here the
stream value at the call's counter `k`) and branches on
`u < mixture_prob` (default 1): below, it returns a gamma draw with the
configured shape and scale `1/rate`; otherwise a uniform draw on
`[min, max]`.  The branch is decided afresh from the stream at each
call's own counter and the counter advances past the consumed draws, so
nothing is cached between calls. -/
theorem C8_sample_is_fresh_mixture (dists : List (String × DistCfg)) (w : String)
    (cfg : DistCfg) (g : GammaCfg) (u : UniformCfg) (rm : RandModel) (k : ℕ)
    (hc : lookupCfg dists w = some cfg) (hg : cfg.gamma = some g)
    (hu : cfg.uniform = some u) :
    ServiceTimeSampler.sample dists w rm k =
      if rm.stream k < cfg.mixture_prob.getD 1 then
        .ok (rm.gammavariateF g.shape (1 / g.rate) (rm.stream (k + 1)), k + 2)
      else
        .ok (rm.uniformF u.min u.max (rm.stream (k + 1)), k + 2) := by
  rw [ServiceTimeSampler.sample.eq_def, hc]
  dsimp only
  rw [hg, hu]

/-- Witness configuration for C8. -/
def distsC8 : List (String × DistCfg) :=
  [("w", { gamma := some ⟨2, 4⟩, uniform := some ⟨1, 9⟩, mixture_prob := some (1 / 2) })]

/-- Witness oracle for C8. -/
def rmC8 : RandModel :=
  { stream := fun _ => 0, expovariateF := fun _ _ => 0,
    gammavariateF := fun _ _ _ => 3, uniformF := fun _ _ _ => 4,
    randintF := fun _ _ _ => 0, randrangeF := fun _ _ => 0,
    choicesF := fun _ _ => 0 }

/-- Witness for `C8_sample_is_fresh_mixture` at a concrete window
configuration. -/
theorem C8_sample_is_fresh_mixture_witness :
    ServiceTimeSampler.sample distsC8 "w" rmC8 0 =
      if rmC8.stream 0 < (DistCfg.mixture_prob
          { gamma := some ⟨2, 4⟩, uniform := some ⟨1, 9⟩,
            mixture_prob := some (1 / 2) }).getD 1 then
        .ok (rmC8.gammavariateF 2 (1 / 4) (rmC8.stream 1), 2)
      else
        .ok (rmC8.uniformF 1 9 (rmC8.stream 1), 2) :=
  C8_sample_is_fresh_mixture distsC8 "w"
    { gamma := some ⟨2, 4⟩, uniform := some ⟨1, 9⟩, mixture_prob := some (1 / 2) }
    ⟨2, 4⟩ ⟨1, 9⟩ rmC8 0 rfl rfl rfl

/-! ## Claim C9 -/

/-- C9: determinism as a two-run equality.  In the embedding every random
draw of a run is a function of the `RandModel`, which abstracts Python's
global `random` generator right after `random.seed(seed)`; the same seed
and configuration give the same model.  Two runs of a simulator built
from the same configuration whose oracles agree on every primitive
produce identical results — arrivals, service draws, nest choices, SIRO
draws, and hence the whole log/metrics outcome (here: the identical
`Except` result of `run`). -/
theorem C9_same_seed_same_run (cfg : SimConfig)
    (tw : Option (List (String × TimeWindow))) (seed : Option ℕ) (fuel : ℕ)
    (rm1 rm2 : RandModel)
    (h1 : rm1.stream = rm2.stream) (h2 : rm1.expovariateF = rm2.expovariateF)
    (h3 : rm1.gammavariateF = rm2.gammavariateF) (h4 : rm1.uniformF = rm2.uniformF)
    (h5 : rm1.randintF = rm2.randintF) (h6 : rm1.randrangeF = rm2.randrangeF)
    (h7 : rm1.choicesF = rm2.choicesF) :
    Simulator.run (Simulator.init cfg tw seed) fuel rm1 =
      Simulator.run (Simulator.init cfg tw seed) fuel rm2 := by
  have : rm1 = rm2 := by
    cases rm1
    cases rm2
    simp_all
  rw [this]

/-- Witness configuration for C9. -/
def cfgC9 : SimConfig := ⟨"post_2", 2, none, [], 0⟩

/-- Witness oracle for C9. -/
def rmC9 : RandModel :=
  { stream := fun n => n, expovariateF := fun r u => r + u,
    gammavariateF := fun a b u => a + b + u, uniformF := fun a b u => a + b + u,
    randintF := fun a _ _ => a, randrangeF := fun _ _ => 0,
    choicesF := fun _ _ => 0 }

/-- Witness for `C9_same_seed_same_run` at a concrete configuration. -/
theorem C9_same_seed_same_run_witness :
    Simulator.run (Simulator.init cfgC9 none (some 42)) 3 rmC9 =
      Simulator.run (Simulator.init cfgC9 none (some 42)) 3 rmC9 :=
  C9_same_seed_same_run cfgC9 none (some 42) 3 rmC9 rmC9
    rfl rfl rfl rfl rfl rfl rfl

/-! ## Claim C7 -/

/-- C7: `finalize_metrics` is idempotent.  The first call moves both
interval starts to `none`; a second call with the same `final_time` then
matches `none` twice and leaves both accumulated durations unchanged. -/
theorem C7_finalize_metrics_idempotent (st : Nest) (final_time : ℚ) :
    ((st.finalize_metrics final_time).finalize_metrics final_time).total_occupancy_duration
        = (st.finalize_metrics final_time).total_occupancy_duration ∧
    ((st.finalize_metrics final_time).finalize_metrics final_time).total_single_hen_duration
        = (st.finalize_metrics final_time).total_single_hen_duration := by
  cases h1 : st.occupancy_start <;> cases h2 : st.single_hen_start <;>
    simp [Nest.finalize_metrics, h1, h2]

end PoultrySim
